import Mathlib

/-!
Verification of the data-processing pipeline of `src/main.py`
(the EIA electricity market price tracker).

The script is embedded shallowly:

* pandas timestamps become a `Date` structure (year, month, day) with the
  calendar (lexicographic) order; EIA periods `YYYY-MM` parse to the first
  day of the month, the sidebar date pickers give day-resolution dates;
* float columns become `Option Rat` (a `none` is a NaN produced by
  `pd.to_numeric(errors="coerce")`), and float results that can be
  NaN or infinite become the type `FVal`;
* an uncaught Python exception becomes `Except.error`;
* the Streamlit page run becomes a pure function from the fetched data and
  the sidebar inputs to the list of rendered items, in the order the script
  renders them, stopping at `st.stop()` or at an uncaught exception.

The Prophet forecasting library is out of the repository; only the small,
documented surface the script touches is modelled (`fit`'s
fewer-than-two-rows check and `make_future_dataframe`, whose
`include_history` flag defaults to `True`); predicted `yhat` values are
opaque and never modelled, so forecast series are represented by their
`ds` (date) column only.
-/

namespace EIA

/-- Calendar date (year, month, day): the embedding of the pandas timestamps
built by `pd.to_datetime` in `src/main.py`. -/
structure Date where
  y : Nat
  m : Nat
  d : Nat
deriving DecidableEq, Repr

/-- Calendar (lexicographic) order on dates as a Boolean test: the embedding
of pandas timestamp comparison `<=`. -/
def Date.leb (a b : Date) : Bool :=
  decide (a.y < b.y ∨ (a.y = b.y ∧ (a.m < b.m ∨ (a.m = b.m ∧ a.d ≤ b.d))))

/-- Strict calendar order, the embedding of pandas timestamp comparison `<`. -/
def Date.ltb (a b : Date) : Bool := !(Date.leb b a)

instance : LE Date := ⟨fun a b => Date.leb a b = true⟩

instance : LT Date := ⟨fun a b => Date.ltb a b = true⟩

instance (a b : Date) : Decidable (a ≤ b) :=
  inferInstanceAs (Decidable (_ = true))

instance (a b : Date) : Decidable (a < b) :=
  inferInstanceAs (Decidable (_ = true))

/-- A month-start date with a real month number: the shape of every parsed
EIA period (`YYYY-MM` parses to day 1 of the month). -/
def Date.validMS (dt : Date) : Prop := dt.d = 1 ∧ 1 ≤ dt.m ∧ dt.m ≤ 12

instance (dt : Date) : Decidable dt.validMS :=
  inferInstanceAs (Decidable (_ ∧ _))

/-- First day of the month after `dt`: one step of the pandas `MS`
(month-start) frequency used by `make_future_dataframe(..., freq='MS')`. -/
def Date.nextMonthStart (dt : Date) : Date :=
  if 12 ≤ dt.m then ⟨dt.y + 1, 1, 1⟩ else ⟨dt.y, dt.m + 1, 1⟩

/-- `n` successive month starts beginning at `d`: the spine of
`pd.date_range(start, periods=n, freq='MS')` when `start` is a month start. -/
def msIter (d : Date) : Nat → List Date
  | 0 => []
  | n + 1 => d :: msIter d.nextMonthStart n

/-- `pd.date_range(start, periods=n, freq='MS')`: month-start dates; when
`start` is not itself a month start pandas begins at the next month start. -/
def dateRangeMS (start : Date) (n : Nat) : List Date :=
  if start.d = 1 then msIter start n else msIter start.nextMonthStart n

/-- Sorted insertion on dates, a step of the sorting done by the pandas
`sort_values` call inside Prophet's history preparation. -/
def insertD (x : Date) : List Date → List Date
  | [] => [x]
  | y :: ys => if Date.leb x y then x :: y :: ys else y :: insertD x ys

/-- Insertion sort by calendar order (the effect of `sort_values`). -/
def insertionSortD : List Date → List Date
  | [] => []
  | x :: xs => insertD x (insertionSortD xs)

/-- Remove adjacent duplicates; on a sorted list this yields the distinct
values (the effect of pandas `unique`). -/
def dedupAdjD : List Date → List Date
  | [] => []
  | [x] => [x]
  | x :: y :: ys => if x = y then dedupAdjD (y :: ys) else x :: dedupAdjD (y :: ys)

/-- `pd.Series(df['ds'].unique()).sort_values()` as used by Prophet to build
`history_dates`: the sorted list of distinct dates of a series. -/
def sortedUniqueDates (l : List Date) : List Date :=
  dedupAdjD (insertionSortD l)

/-- `series.max()` on a date series (pandas maximum of the timestamps). -/
def seriesMaxDate : List Date → Date
  | [] => ⟨1970, 1, 1⟩
  | x :: xs => xs.foldl (fun a b => if Date.leb a b then b else a) x

instance {ε α : Type} [DecidableEq ε] [DecidableEq α] : DecidableEq (Except ε α) :=
  fun a b =>
    match a, b with
    | Except.error x, Except.error y =>
        if h : x = y then isTrue (by rw [h]) else isFalse (by simp [h])
    | Except.ok x, Except.ok y =>
        if h : x = y then isTrue (by rw [h]) else isFalse (by simp [h])
    | Except.error _, Except.ok _ => isFalse (by simp)
    | Except.ok _, Except.error _ => isFalse (by simp)

/-- Result of a float computation that can be NaN or infinite.  Finite
values are modelled exactly as rationals; `nan` stands for IEEE NaN (the
only value for which `pd.notna` is false), `inf`/`ninf` for the two
infinities produced by dividing a nonzero float by zero. -/
inductive FVal where
  | fin (q : Rat)
  | inf
  | ninf
  | nan
deriving DecidableEq, Repr

/-- `pd.notna` on a scalar float: false exactly on NaN (infinities count as
present values). -/
def notna : FVal → Bool
  | FVal.nan => false
  | _ => true

/-- Float subtraction on possibly-missing values: NaN propagates. -/
def fSub : Option Rat → Option Rat → Option Rat
  | some a, some b => some (a - b)
  | _, _ => none

/-- Float division `a / b`, including the IEEE zero-denominator cases: a
nonzero numerator over (positive) zero gives a signed infinity, `0.0/0.0`
gives NaN, and NaN operands propagate.  (Parsed prices cannot carry the
sign bit of `-0.0`, so the positive-zero case is the only one reachable.) -/
def fDiv : Option Rat → Option Rat → FVal
  | some a, some b =>
      if b ≠ 0 then FVal.fin (a / b)
      else if 0 < a then FVal.inf
      else if a < 0 then FVal.ninf
      else FVal.nan
  | _, _ => FVal.nan

/-- Float multiplication by a finite constant. -/
def fMulC : FVal → Rat → FVal
  | FVal.fin q, c => FVal.fin (q * c)
  | FVal.inf, c => if 0 < c then FVal.inf else if c < 0 then FVal.ninf else FVal.nan
  | FVal.ninf, c => if 0 < c then FVal.ninf else if c < 0 then FVal.inf else FVal.nan
  | FVal.nan, _ => FVal.nan

/-- `series.mean()`: pandas skips missing values; the mean of an empty or
all-missing series is NaN. -/
def seriesMean (xs : List (Option Rat)) : FVal :=
  let present := xs.filterMap id
  if present.length = 0 then FVal.nan
  else FVal.fin (present.sum / (present.length : Rat))

/-- `series.max()`: pandas skips missing values; the max of an empty or
all-missing series is NaN. -/
def seriesMax (xs : List (Option Rat)) : FVal :=
  match xs.filterMap id with
  | [] => FVal.nan
  | q :: qs => FVal.fin (qs.foldl max q)

/-- `series.sum()`: missing values contribute zero; the empty sum is `0.0`. -/
def seriesSum (xs : List (Option Rat)) : Rat :=
  (xs.filterMap id).sum

/-- `series.iloc[0]`: raises `IndexError` on an empty series. -/
def iloc0 : List α → Except String α
  | [] => Except.error "single positional indexer is out-of-bounds"
  | x :: _ => Except.ok x

/-- `series.iloc[-1]`: raises `IndexError` on an empty series. -/
def ilocNeg1 : List α → Except String α
  | [] => Except.error "single positional indexer is out-of-bounds"
  | [x] => Except.ok x
  | _ :: y :: ys => ilocNeg1 (y :: ys)

/-- One row of the loaded dataframe (`src/main.py` lines 42-45): the parsed
period timestamp, the sector label, and the three numeric columns the page
uses.  A numeric field is `none` when `pd.to_numeric(errors="coerce")`
produced NaN for it.  The `customers` column is fetched but never read, so
it is not modelled. -/
structure Row where
  date : Date
  sectorName : String
  price : Option Rat
  revenue : Option Rat
  sales : Option Rat
deriving DecidableEq, Repr

/-- The `response` object of the EIA JSON envelope; `data` is `none` when
the `"data"` key is absent. -/
structure ApiInner where
  data : Option (List Row)
deriving DecidableEq, Repr

/-- A decoded EIA API reply; `response` is `none` when the `"response"` key
is absent. -/
structure ApiEnvelope where
  response : Option ApiInner
deriving DecidableEq, Repr

/-- `fetch_eia_data` (`src/main.py` lines 23-47): when the envelope has a
`response` object with a `data` list, parse the rows and drop those whose
price failed to parse (`df.dropna(subset=["price"])`); otherwise return an
empty dataframe. -/
def fetch_eia_data (resp : ApiEnvelope) : List Row :=
  match resp.response with
  | some inner =>
      match inner.data with
      | some rows => rows.filter (fun r => r.price.isSome)
      | none => []
  | none => []

/-- The KPI filter (`src/main.py` lines 73-77): keep rows whose sector label
equals the selected sector and whose date lies in `[start_date, end_date]`. -/
def kpi_df (df : List Row) (sector : String) (start_date end_date : Date) : List Row :=
  df.filter (fun r =>
    ((r.sectorName == sector) && Date.leb start_date r.date) && Date.leb r.date end_date)

/-- The five KPI scalars of `src/main.py` lines 83-87. -/
structure KPIs where
  average_price : FVal
  max_price : FVal
  price_change : FVal
  sales_total : Rat
  revenue_total : Rat
deriving DecidableEq, Repr

/-- `price_change` (`src/main.py` line 85):
`((price.iloc[-1] - price.iloc[0]) / price.iloc[0]) * 100`.  Python
evaluates `iloc[-1]` first; either indexer raises on an empty series. -/
def price_change (prices : List (Option Rat)) : Except String FVal :=
  match ilocNeg1 prices with
  | Except.error e => Except.error e
  | Except.ok lastP =>
      match iloc0 prices with
      | Except.error e => Except.error e
      | Except.ok firstP => Except.ok (fMulC (fDiv (fSub lastP firstP) firstP) 100)

/-- Lines 83-87 of `src/main.py` in program order: the mean, max and the
percent change over the filtered price column, and the sales and revenue
totals.  An `IndexError` raised by the percent-change line aborts the run. -/
def computeKPIs (kdf : List Row) : Except String KPIs :=
  let average_price := seriesMean (kdf.map Row.price)
  let max_price := seriesMax (kdf.map Row.price)
  match price_change (kdf.map Row.price) with
  | Except.error e => Except.error e
  | Except.ok pc =>
      Except.ok ⟨average_price, max_price, pc,
        seriesSum (kdf.map Row.sales), seriesSum (kdf.map Row.revenue)⟩

/-- The KPI cards of `src/main.py` lines 91-97.  A cell is `none` exactly
when its `pd.notna` guard fails, in which case the page renders the literal
string `"N/A"`; numeric formatting itself is presenter glue and is left
abstract. -/
def kpi_data (k : KPIs) : List (String × Option FVal) :=
  [ ("Average Price (¢/kWh)", if notna k.average_price then some k.average_price else none),
    ("Max Price (¢/kWh)", if notna k.max_price then some k.max_price else none),
    ("% Price Change", if notna k.price_change then some k.price_change else none),
    ("Total Sales (kWh)",
      if notna (FVal.fin k.sales_total) then some (FVal.fin k.sales_total) else none),
    ("Total Revenue ($)",
      if notna (FVal.fin k.revenue_total) then some (FVal.fin k.revenue_total) else none) ]

/-- Float `>` on possibly-missing values: any comparison with NaN is false. -/
def gtOpt : Option Rat → Option Rat → Bool
  | some a, some b => decide (b < a)
  | _, _ => false

/-- The trend word of the insight sentence (`src/main.py` line 119):
`"increased" if price.iloc[-1] > price.iloc[0] else "decreased"`. -/
def trendOf (kdf : List Row) : Except String String :=
  match ilocNeg1 (kdf.map Row.price) with
  | Except.error e => Except.error e
  | Except.ok lastP =>
      match iloc0 (kdf.map Row.price) with
      | Except.error e => Except.error e
      | Except.ok firstP =>
          Except.ok (if gtOpt lastP firstP then "increased" else "decreased")

/-- The sidebar granularity radio button (`src/main.py` line 69). -/
inductive Granularity where
  | Monthly
  | Yearly
deriving DecidableEq, Repr

/-- The distinct calendar years of the filtered rows, ascending: the group
keys of `filtered_df.groupby("Year")` (pandas sorts group keys). -/
def yearsOf (rows : List Row) : List Nat :=
  ((rows.map (fun r => r.date.y)).toFinset).sort (· ≤ ·)

/-- The yearly rollup (`src/main.py` lines 110-112):
`groupby("Year").agg({"price": "mean"}).reset_index()` — one point per
distinct year, keys ascending, price averaged within the year. -/
def yearly_rollup (rows : List Row) : List (Nat × FVal) :=
  (yearsOf rows).map (fun yr =>
    (yr, seriesMean ((rows.filter (fun r => r.date.y == yr)).map Row.price)))

/-- The series handed to `px.line` (`src/main.py` lines 108-115 and 126-132):
monthly rows as (date, price) points, or the yearly rollup. -/
inductive ChartSeries where
  | monthly (pts : List (Date × Option Rat))
  | yearly (pts : List (Nat × FVal))
deriving DecidableEq, Repr

/-- One visible element of the rendered page, in render order.  `errorBox`
is `st.error`; `exceptionBox` is the traceback Streamlit shows for an
uncaught exception, which aborts the rest of the script.  A chart's
`overlay` holds the `ds` dates of the forecast scatter when one was added
(the predicted `yhat` values are black-box and not modelled). -/
inductive RenderItem where
  | errorBox (msg : String)
  | kpiCards (cards : List (String × Option FVal))
  | insight (trend : String)
  | chart (series : ChartSeries) (overlay : Option (List Date))
  | exceptionBox (msg : String)
deriving DecidableEq, Repr

def RenderItem.isChart : RenderItem → Bool
  | RenderItem.chart _ _ => true
  | _ => false

/-- The first KPI-card group of a rendered page, if any. -/
def kpiCardsOf (items : List RenderItem) : Option (List (String × Option FVal)) :=
  items.findSome? (fun it =>
    match it with
    | RenderItem.kpiCards cards => some cards
    | _ => none)

/-- The forecast overlay of a rendered page, if any chart carries one. -/
def overlayOf (items : List RenderItem) : Option (List Date) :=
  items.findSome? (fun it =>
    match it with
    | RenderItem.chart _ (some ds) => some ds
    | _ => none)

/-- The one piece of Prophet model state the script's calls depend on:
`history_dates`, the sorted distinct `ds` values of the fitted frame. -/
structure ProphetModel where
  history_dates : List Date
deriving DecidableEq, Repr

/-- `Prophet().fit(prophet_df)` (`src/main.py` lines 137-138), reduced to
the surface the script relies on: fitting raises
`ValueError('Dataframe has less than 2 non-NaN rows.')` when the frame has
fewer than two rows with a non-NaN `y`, and otherwise records the sorted
distinct `ds` values as `history_dates`.  The fitted coefficients are
black-box and unused by the properties below. -/
def prophetFit (prophet_df : List (Date × Option Rat)) : Except String ProphetModel :=
  if (prophet_df.filter (fun p => p.2.isSome)).length < 2 then
    Except.error "Dataframe has less than 2 non-NaN rows."
  else
    Except.ok ⟨sortedUniqueDates (prophet_df.map Prod.fst)⟩

/-- `model.make_future_dataframe(periods=12, freq='MS')`
(`src/main.py` line 140): twelve month-start dates strictly after the last
history date, preceded — because `include_history` defaults to `True` — by
the history dates themselves. -/
def make_future_dataframe (m : ProphetModel) (periods : Nat) : List Date :=
  let last_date := seriesMaxDate m.history_dates
  let dates := dateRangeMS last_date (periods + 1)
  let dates := dates.filter (fun d => Date.ltb last_date d)
  let dates := dates.take periods
  m.history_dates ++ dates

/-- Lines 136-141 of `src/main.py`: build `prophet_df`, fit, extend twelve
months, predict.  `model.predict(future)` returns one prediction per row of
`future`, so the `ds` column of the forecast equals `future` itself. -/
def prophetPipeline (prophet_df : List (Date × Option Rat)) : Except String (List Date) :=
  match prophetFit prophet_df with
  | Except.error e => Except.error e
  | Except.ok m => Except.ok (make_future_dataframe m 12)

/-- The whole page run of `src/main.py` (lines 50-151) as a pure function of
the decoded API reply and the sidebar inputs, returning the rendered items
in order.  `st.stop()` after the load-failure error box, and any uncaught
exception, end the run early; in particular an exception raised inside the
forecast block prevents the base chart (line 151) from rendering. -/
def page (resp : ApiEnvelope) (selected_sector : String) (start_date end_date : Date)
    (granularity : Granularity) (show_forecast : Bool) : List RenderItem :=
  let df := fetch_eia_data resp
  if df.isEmpty then
    [RenderItem.errorBox "Failed to load data from EIA API."]
  else
    let kdf := kpi_df df selected_sector start_date end_date
    match computeKPIs kdf with
    | Except.error e => [RenderItem.exceptionBox e]
    | Except.ok k =>
        let cards := RenderItem.kpiCards (kpi_data k)
        let filtered_series : ChartSeries :=
          match granularity with
          | Granularity.Yearly => ChartSeries.yearly (yearly_rollup kdf)
          | Granularity.Monthly =>
              ChartSeries.monthly (kdf.map (fun r => (r.date, r.price)))
        match granularity with
        | Granularity.Monthly =>
            match trendOf kdf with
            | Except.error e => [cards, RenderItem.exceptionBox e]
            | Except.ok t =>
                if show_forecast then
                  match prophetPipeline (kdf.map (fun r => (r.date, r.price))) with
                  | Except.error e =>
                      [cards, RenderItem.insight t, RenderItem.exceptionBox e]
                  | Except.ok ds =>
                      [cards, RenderItem.insight t,
                        RenderItem.chart filtered_series (some ds)]
                else
                  [cards, RenderItem.insight t, RenderItem.chart filtered_series none]
        | Granularity.Yearly =>
            [cards, RenderItem.chart filtered_series none]

/-- Concrete three-row dataset (two years, all prices parsed) used by the
C5 witness. -/
def c5rows : List Row :=
  [⟨⟨2023, 1, 1⟩, "Residential", some 10, some 5, some 7⟩,
   ⟨⟨2023, 2, 1⟩, "Residential", some 12, some 5, some 7⟩,
   ⟨⟨2024, 3, 1⟩, "Residential", some 20, none, none⟩]

theorem Date.le_def {a b : Date} : a ≤ b ↔ Date.leb a b = true := Iff.rfl

theorem Date.lt_def {a b : Date} : a < b ↔ Date.ltb a b = true := Iff.rfl

theorem Date.le_iff {a b : Date} :
    a ≤ b ↔ (a.y < b.y ∨ (a.y = b.y ∧ (a.m < b.m ∨ (a.m = b.m ∧ a.d ≤ b.d)))) := by
  rw [Date.le_def, Date.leb, decide_eq_true_iff]

theorem Date.lt_iff {a b : Date} :
    a < b ↔ (a.y < b.y ∨ (a.y = b.y ∧ (a.m < b.m ∨ (a.m = b.m ∧ a.d < b.d)))) := by
  rw [Date.lt_def, Date.ltb, Bool.not_eq_true', Bool.eq_false_iff]
  rw [Ne, Date.leb, decide_eq_true_iff]
  omega

theorem Date.le_refl (a : Date) : a ≤ a := by
  rw [Date.le_iff]; omega

theorem Date.le_trans {a b c : Date} (h1 : a ≤ b) (h2 : b ≤ c) : a ≤ c := by
  rw [Date.le_iff] at h1 h2 ⊢; omega

theorem Date.le_total (a b : Date) : a ≤ b ∨ b ≤ a := by
  rw [Date.le_iff, Date.le_iff]; omega

theorem Date.lt_trans {a b c : Date} (h1 : a < b) (h2 : b < c) : a < c := by
  rw [Date.lt_iff] at h1 h2 ⊢; omega

theorem Date.lt_of_lt_of_le {a b c : Date} (h1 : a < b) (h2 : b ≤ c) : a < c := by
  rw [Date.lt_iff] at h1 ⊢; rw [Date.le_iff] at h2; omega

theorem Date.lt_of_le_of_lt {a b c : Date} (h1 : a ≤ b) (h2 : b < c) : a < c := by
  rw [Date.le_iff] at h1; rw [Date.lt_iff] at h2 ⊢; omega

theorem Date.lt_irrefl (a : Date) : ¬ a < a := by
  rw [Date.lt_iff]; omega

theorem Date.ltb_self (a : Date) : Date.ltb a a = false := by
  have h := Date.lt_irrefl a
  rw [Date.lt_def] at h
  exact Bool.eq_false_iff.mpr h

theorem Date.le_of_not_le {a b : Date} (h : ¬ a ≤ b) : b ≤ a :=
  (Date.le_total a b).resolve_left h

theorem Date.validMS_nextMonthStart {dt : Date} (h : dt.validMS) :
    dt.nextMonthStart.validMS := by
  rcases h with ⟨hd, hm1, hm2⟩
  unfold Date.nextMonthStart Date.validMS
  split <;> simp <;> omega

theorem Date.lt_nextMonthStart {dt : Date} (h : dt.validMS) :
    dt < dt.nextMonthStart := by
  rcases h with ⟨hd, hm1, hm2⟩
  rw [Date.lt_iff]
  unfold Date.nextMonthStart
  split <;> simp <;> omega

theorem msIter_length (d : Date) (n : Nat) : (msIter d n).length = n := by
  induction n generalizing d with
  | zero => rfl
  | succ n ih => simp [msIter, ih]

theorem msIter_chain_next (d : Date) (n : Nat) :
    (msIter d n).Chain' (fun a b => b = a.nextMonthStart) := by
  induction n generalizing d with
  | zero => simp [msIter]
  | succ n ih =>
    rw [msIter, List.chain'_cons']
    refine ⟨?_, ih d.nextMonthStart⟩
    intro b hb
    cases n with
    | zero => simp [msIter] at hb
    | succ k => simp [msIter] at hb; exact hb.symm

theorem msIter_valid {d : Date} (h : d.validMS) (n : Nat) :
    ∀ x ∈ msIter d n, x.validMS := by
  induction n generalizing d with
  | zero => simp [msIter]
  | succ n ih =>
    intro x hx
    rw [msIter, List.mem_cons] at hx
    rcases hx with rfl | hx
    · exact h
    · exact ih (Date.validMS_nextMonthStart h) x hx

theorem msIter_ge {d : Date} (h : d.validMS) (n : Nat) :
    ∀ x ∈ msIter d n, d = x ∨ d < x := by
  induction n generalizing d with
  | zero => simp [msIter]
  | succ n ih =>
    intro x hx
    rw [msIter, List.mem_cons] at hx
    rcases hx with rfl | hx
    · exact Or.inl rfl
    · rcases ih (Date.validMS_nextMonthStart h) x hx with rfl | hlt
      · exact Or.inr (Date.lt_nextMonthStart h)
      · exact Or.inr (Date.lt_trans (Date.lt_nextMonthStart h) hlt)

theorem msIter_chain_lt {d : Date} (h : d.validMS) (n : Nat) :
    (msIter d n).Chain' (· < ·) := by
  induction n generalizing d with
  | zero => simp [msIter]
  | succ n ih =>
    rw [msIter, List.chain'_cons']
    refine ⟨?_, ih (Date.validMS_nextMonthStart h)⟩
    intro b hb
    cases n with
    | zero => simp [msIter] at hb
    | succ k =>
      have : b = d.nextMonthStart := by simp [msIter] at hb; exact hb.symm
      rw [this]
      exact Date.lt_nextMonthStart h

theorem mem_insertD {x a : Date} {l : List Date} :
    a ∈ insertD x l ↔ a = x ∨ a ∈ l := by
  induction l with
  | nil => simp [insertD]
  | cons y ys ih =>
    rw [insertD]
    split
    · simp
    · simp [ih]
      tauto

theorem mem_insertionSortD {a : Date} {l : List Date} :
    a ∈ insertionSortD l ↔ a ∈ l := by
  induction l with
  | nil => simp [insertionSortD]
  | cons x xs ih => simp [insertionSortD, mem_insertD, ih]

theorem mem_dedupAdjD {a : Date} {l : List Date} :
    a ∈ dedupAdjD l ↔ a ∈ l := by
  induction l with
  | nil => simp [dedupAdjD]
  | cons x xs ih =>
    cases xs with
    | nil => simp [dedupAdjD]
    | cons y ys =>
      rw [dedupAdjD]
      split
      · next h => subst h; rw [ih]; simp only [List.mem_cons]; tauto
      · simp only [List.mem_cons] at ih ⊢; rw [ih]

theorem mem_sortedUniqueDates {a : Date} {l : List Date} :
    a ∈ sortedUniqueDates l ↔ a ∈ l := by
  rw [sortedUniqueDates, mem_dedupAdjD, mem_insertionSortD]

theorem insertD_ne_nil (x : Date) (l : List Date) : insertD x l ≠ [] := by
  cases l with
  | nil => simp [insertD]
  | cons y ys => rw [insertD]; split <;> simp

theorem sortedUniqueDates_ne_nil {l : List Date} (h : l ≠ []) :
    sortedUniqueDates l ≠ [] := by
  intro hcon
  rcases List.exists_mem_of_ne_nil l h with ⟨a, ha⟩
  have := mem_sortedUniqueDates.mpr ha
  rw [hcon] at this
  simp at this

theorem seriesMaxDate_mem {l : List Date} (h : l ≠ []) : seriesMaxDate l ∈ l := by
  cases l with
  | nil => exact absurd rfl h
  | cons x xs =>
    rw [seriesMaxDate]
    have key : ∀ (ys : List Date) (a : Date),
        ys.foldl (fun a b => if Date.leb a b then b else a) a ∈ a :: ys := by
      intro ys
      induction ys with
      | nil => simp
      | cons y ys ih =>
        intro a
        rw [List.foldl_cons]
        have h2 := ih (if Date.leb a y then y else a)
        rcases List.mem_cons.mp h2 with h3 | h3
        · rw [h3]
          split <;> simp
        · simp [h3]
    exact key xs x

theorem seriesMaxDate_ge {l : List Date} :
    ∀ x ∈ l, x ≤ seriesMaxDate l := by
  cases l with
  | nil => simp
  | cons a as =>
    rw [seriesMaxDate]
    have hstep : ∀ (ys : List Date) (a : Date),
        a ≤ ys.foldl (fun a b => if Date.leb a b then b else a) a := by
      intro ys
      induction ys with
      | nil => intro a; exact Date.le_refl a
      | cons y ys ih =>
        intro a
        rw [List.foldl_cons]
        refine Date.le_trans ?_ (ih _)
        split
        · exact Date.le_def.mpr (by assumption)
        · exact Date.le_refl a
    have key : ∀ (ys : List Date) (a x : Date), x ∈ a :: ys →
        x ≤ ys.foldl (fun a b => if Date.leb a b then b else a) a := by
      intro ys
      induction ys with
      | nil => intro a x hx; simp at hx; rw [hx]; exact Date.le_refl a
      | cons y ys ih =>
        intro a x hx
        rw [List.foldl_cons]
        rcases List.mem_cons.mp hx with rfl | hx2
        · refine Date.le_trans ?_ (hstep ys _)
          split
          · exact Date.le_def.mpr (by assumption)
          · exact Date.le_refl x
        · rcases List.mem_cons.mp hx2 with rfl | hx3
          · refine Date.le_trans ?_ (hstep ys _)
            split
            · exact Date.le_refl x
            · exact Date.le_of_not_le (by rw [Date.le_def]; simp_all)
          · exact ih _ x (List.mem_cons.mpr (Or.inr hx3))
    intro x hx
    exact key as a x hx

/-- C1: the claim says an empty filtered dataset yields a KPI snapshot with
average/max/percent-change "not available" and zero totals, never raising.
The code disagrees: `kpi_df["price"].iloc[-1]` on the empty series raises
`IndexError`, aborting the page before any KPI card renders — even though
the mean and max would indeed be NaN (displayed "N/A") and the sums `0`,
and even though line 94's `pd.notna` guard shows "N/A" was the intent for
an undefined percent change.  Shown here on a dataset whose only sector is
"Residential" filtered for "Commercial". -/
theorem c1_empty_filter_kpis_raise :
    computeKPIs [] = Except.error "single positional indexer is out-of-bounds"
  ∧ seriesMean [] = FVal.nan
  ∧ seriesMax [] = FVal.nan
  ∧ seriesSum [] = 0
  ∧ page ⟨some ⟨some [⟨⟨2023, 1, 1⟩, "Residential", some 10, some 5, some 7⟩]⟩⟩
        "Commercial" ⟨2023, 1, 1⟩ ⟨2024, 1, 1⟩ Granularity.Monthly false
      = [RenderItem.exceptionBox "single positional indexer is out-of-bounds"] := by
  refine ⟨rfl, rfl, rfl, rfl, ?_⟩
  decide

/-- C4: every row kept by the KPI filter has exactly the selected sector
label and a date inside the closed interval `[start_date, end_date]`. -/
theorem c4_filter_rows_match (df : List Row) (sector : String) (s e : Date)
    (hse : s ≤ e) :
    ∀ r ∈ kpi_df df sector s e, r.sectorName = sector ∧ s ≤ r.date ∧ r.date ≤ e := by
  intro r hr
  rw [kpi_df, List.mem_filter] at hr
  obtain ⟨-, hcond⟩ := hr
  simp only [Bool.and_eq_true, beq_iff_eq] at hcond
  exact ⟨hcond.1.1, hcond.1.2, hcond.2⟩

/-- Witness for C4 at a concrete dataset and date range. -/
theorem c4_filter_rows_match_witness :
    ((⟨2023, 1, 1⟩ : Date) ≤ (⟨2024, 1, 1⟩ : Date))
  ∧ ∀ r ∈ kpi_df
        [⟨⟨2023, 1, 1⟩, "Residential", some 10, some 5, some 7⟩,
         ⟨⟨2023, 6, 1⟩, "Commercial", some 11, some 5, some 7⟩]
        "Residential" ⟨2023, 1, 1⟩ ⟨2024, 1, 1⟩,
      r.sectorName = "Residential"
        ∧ (⟨2023, 1, 1⟩ : Date) ≤ r.date ∧ r.date ≤ (⟨2024, 1, 1⟩ : Date) :=
  ⟨by decide, c4_filter_rows_match _ "Residential" _ _ (by decide)⟩

/-- C7: a reply without the expected envelope (`response` key missing, or
`data` missing inside it) loads as an empty dataframe, and the page halts
with the single error box `st.error("Failed to load data from EIA API.")`
followed by `st.stop()`, whatever the sidebar inputs. -/
theorem c7_malformed_response_halts (resp : ApiEnvelope) (sector : String)
    (s e : Date) (g : Granularity) (f : Bool)
    (h : resp.response = none
        ∨ ∃ inner, resp.response = some inner ∧ inner.data = none) :
    fetch_eia_data resp = []
  ∧ page resp sector s e g f
      = [RenderItem.errorBox "Failed to load data from EIA API."] := by
  have hf : fetch_eia_data resp = [] := by
    rcases h with h | ⟨inner, h1, h2⟩
    · rw [fetch_eia_data, h]
    · simp [fetch_eia_data, h1, h2]
  refine ⟨hf, ?_⟩
  simp [page, hf]

/-- Witness for C7 at the reply with no `response` key. -/
theorem c7_malformed_response_halts_witness :
    fetch_eia_data ⟨none⟩ = []
  ∧ page ⟨none⟩ "Residential" ⟨2023, 1, 1⟩ ⟨2024, 1, 1⟩ Granularity.Monthly false
      = [RenderItem.errorBox "Failed to load data from EIA API."] :=
  c7_malformed_response_halts ⟨none⟩ "Residential" ⟨2023, 1, 1⟩ ⟨2024, 1, 1⟩
    Granularity.Monthly false (Or.inl rfl)

/-- C8 counterexample: the loader never deduplicates, so a reply that
repeats a row yields a Dataset with a duplicate (period, sector) pair,
refuting the claimed invariant. -/
theorem c8_duplicate_pairs_survive :
    fetch_eia_data
        ⟨some ⟨some [⟨⟨2023, 1, 1⟩, "Residential", some 10, some 5, some 7⟩,
                     ⟨⟨2023, 1, 1⟩, "Residential", some 10, some 5, some 7⟩]⟩⟩
      = [⟨⟨2023, 1, 1⟩, "Residential", some 10, some 5, some 7⟩,
         ⟨⟨2023, 1, 1⟩, "Residential", some 10, some 5, some 7⟩]
  ∧ ¬ ((fetch_eia_data
        ⟨some ⟨some [⟨⟨2023, 1, 1⟩, "Residential", some 10, some 5, some 7⟩,
                     ⟨⟨2023, 1, 1⟩, "Residential", some 10, some 5, some 7⟩]⟩⟩).map
          (fun r => (r.date, r.sectorName))).Nodup := by
  refine ⟨rfl, ?_⟩
  decide

/-- C8 amended: the loader does enforce the other half of the invariant —
every row it returns has a successfully parsed price (rows whose price
coerced to NaN are dropped by `dropna(subset=["price"])`). -/
theorem c8_loader_prices_parsed (resp : ApiEnvelope) (r : Row)
    (hr : r ∈ fetch_eia_data resp) : r.price.isSome = true := by
  rw [fetch_eia_data] at hr
  rcases hresp : resp.response with _ | inner
  · rw [hresp] at hr; simp at hr
  · rw [hresp] at hr
    rcases hdata : inner.data with _ | rows
    · simp only [hdata] at hr; simp at hr
    · simp only [hdata] at hr
      exact (List.mem_filter.mp hr).2

/-- Witness for the amended C8 on a reply mixing parseable and unparseable
prices. -/
theorem c8_loader_prices_parsed_witness :
    (Row.mk ⟨2023, 1, 1⟩ "Residential" (some 10) (some 5) (some 7)).price.isSome = true :=
  c8_loader_prices_parsed
    ⟨some ⟨some [⟨⟨2023, 1, 1⟩, "Residential", some 10, some 5, some 7⟩,
                 ⟨⟨2023, 2, 1⟩, "Residential", none, some 5, some 7⟩]⟩⟩
    ⟨⟨2023, 1, 1⟩, "Residential", some 10, some 5, some 7⟩ (by decide)

/-- C9 counterexample: with a negative first price the percent-change sign
flips: prices `[-10, -5]` give `((-5) - (-10)) / (-10) * 100 = -50`,
negative although `last - first = 5` is positive. -/
theorem c9_sign_flips_for_negative_first :
    price_change [some (-10), some (-5)] = Except.ok (FVal.fin (-50))
  ∧ (0 : Rat) < (-5 : Rat) - (-10)
  ∧ (-50 : Rat) < 0 := by
  refine ⟨?_, by norm_num, by norm_num⟩
  rw [price_change]
  norm_num [ilocNeg1, iloc0, fSub, fDiv, fMulC]

/-- C9 amended: for a non-empty filtered series whose first price is
positive, the percent change is finite and its sign agrees with the sign of
(last price − first price). -/
theorem c9_price_change_sign (prices : List (Option Rat)) (f l : Rat)
    (hf : iloc0 prices = Except.ok (some f))
    (hl : ilocNeg1 prices = Except.ok (some l))
    (hpos : 0 < f) :
    price_change prices = Except.ok (FVal.fin ((l - f) / f * 100))
  ∧ (0 < (l - f) / f * 100 ↔ f < l)
  ∧ ((l - f) / f * 100 < 0 ↔ l < f)
  ∧ ((l - f) / f * 100 = 0 ↔ l = f) := by
  have hne : f ≠ 0 := ne_of_gt hpos
  have hcomp : price_change prices = Except.ok (FVal.fin ((l - f) / f * 100)) := by
    rw [price_change, hl, hf]
    simp [fSub, fDiv, fMulC, hne]
  have hrf : (l - f) / f * 100 * f = (l - f) * 100 := by
    field_simp
  refine ⟨hcomp, ?_, ?_, ?_⟩
  · constructor
    · intro h; nlinarith
    · intro h; nlinarith
  · constructor
    · intro h; nlinarith
    · intro h; nlinarith
  · constructor
    · intro h
      have h2 : (l - f) * 100 = 0 := by rw [← hrf, h]; ring
      have h3 : l - f = 0 := by linarith
      linarith
    · intro h
      rw [h]
      simp

/-- Witness for the amended C9 at prices `[10, 12]`. -/
theorem c9_price_change_sign_witness :
    price_change [some 10, some 12] = Except.ok (FVal.fin ((12 - 10) / 10 * 100))
  ∧ (0 < ((12 : Rat) - 10) / 10 * 100 ↔ (10 : Rat) < 12)
  ∧ (((12 : Rat) - 10) / 10 * 100 < 0 ↔ (12 : Rat) < 10)
  ∧ (((12 : Rat) - 10) / 10 * 100 = 0 ↔ (12 : Rat) = 10) :=
  c9_price_change_sign [some 10, some 12] 10 12 (by decide) (by decide) (by norm_num)

/-- C3 counterexample: a filtered set whose first price is zero and last
price is 5 raises nothing, but the percent change evaluates to `+inf`,
which passes the `pd.notna` guard, so the card shows the formatted infinity
rather than "N/A" — the division by zero is not guarded. -/
theorem c3_zero_first_price_shows_inf :
    computeKPIs [⟨⟨2023, 1, 1⟩, "Residential", some 0, none, none⟩,
                 ⟨⟨2023, 2, 1⟩, "Residential", some 5, none, none⟩]
      = Except.ok ⟨FVal.fin (5 / 2), FVal.fin 5, FVal.inf, 0, 0⟩
  ∧ (kpi_data ⟨FVal.fin (5 / 2), FVal.fin 5, FVal.inf, 0, 0⟩).map Prod.snd
      = [some (FVal.fin (5 / 2)), some (FVal.fin 5), some FVal.inf,
         some (FVal.fin 0), some (FVal.fin 0)] := by
  constructor
  · rw [computeKPIs]
    norm_num [price_change, ilocNeg1, iloc0, seriesMean, seriesMax, seriesSum,
      fSub, fDiv, fMulC, max_def, List.filterMap_cons, List.filterMap_nil, id_eq,
      List.sum_cons, List.sum_nil, List.foldl_cons, List.foldl_nil]
  · rfl

/-- C3 amended: with a zero first price the percent-change line never
raises; it yields `+inf` (last price positive) or `-inf` (negative), both
of which pass the `pd.notna` guard and are displayed as numbers, and only
when the last price is also zero does it yield NaN, which alone renders as
"N/A". -/
theorem c3_price_change_zero_first (prices : List (Option Rat)) (l : Rat)
    (hf : iloc0 prices = Except.ok (some 0))
    (hl : ilocNeg1 prices = Except.ok (some l)) :
    price_change prices
      = Except.ok (if 0 < l then FVal.inf else if l < 0 then FVal.ninf else FVal.nan)
  ∧ notna (if 0 < l then FVal.inf else if l < 0 then FVal.ninf else FVal.nan)
      = !(l == 0) := by
  constructor
  · rw [price_change, hl, hf]
    rcases lt_trichotomy 0 l with h | h | h
    · simp [fSub, fDiv, fMulC, h, not_lt.mpr (le_of_lt h)]
    · simp [fSub, fDiv, fMulC, h.symm]
    · simp [fSub, fDiv, fMulC, h, not_lt.mpr (le_of_lt h), asymm h]
  · rcases lt_trichotomy 0 l with h | h | h
    · simp [notna, h, ne_of_gt h, (ne_of_gt h).symm]
    · simp [notna, h.symm]
    · simp [notna, h, not_lt.mpr (le_of_lt h), ne_of_lt h, (ne_of_lt h).symm]

/-- Witness for the amended C3 at prices `[0, 5]`. -/
theorem c3_price_change_zero_first_witness :
    price_change [some 0, some 5]
      = Except.ok (if (0 : Rat) < 5 then FVal.inf else if (5 : Rat) < 0 then FVal.ninf else FVal.nan)
  ∧ notna (if (0 : Rat) < 5 then FVal.inf else if (5 : Rat) < 0 then FVal.ninf else FVal.nan)
      = !((5 : Rat) == 0) :=
  c3_price_change_zero_first [some 0, some 5] 5 (by decide) (by decide)

/-- C6 counterexample: with a single-point filtered series and the forecast
toggle on, `Prophet().fit` raises (`Dataframe has less than 2 non-NaN
rows.`) with no try/except around it, so the run ends in an exception box
and no chart at all is rendered — the overlay is not silently omitted and
the base chart is lost. -/
theorem c6_single_point_raises_and_blocks_chart :
    ((page ⟨some ⟨some [⟨⟨2023, 1, 1⟩, "Residential", some 10, some 5, some 7⟩]⟩⟩
        "Residential" ⟨2023, 1, 1⟩ ⟨2024, 1, 1⟩ Granularity.Monthly true).map
          RenderItem.isChart)
      = [false, false, false]
  ∧ (page ⟨some ⟨some [⟨⟨2023, 1, 1⟩, "Residential", some 10, some 5, some 7⟩]⟩⟩
        "Residential" ⟨2023, 1, 1⟩ ⟨2024, 1, 1⟩ Granularity.Monthly true).getLast?
      = some (RenderItem.exceptionBox "Dataframe has less than 2 non-NaN rows.") := by
  refine ⟨by decide, by decide⟩

/-- C2 counterexample: `make_future_dataframe` keeps the history
(`include_history` defaults to `True`) and `model.predict(future)` predicts
over every row of `future`, so the forecast series plotted by the overlay
has (number of distinct input dates) + 12 points: for a two-point input the
overlay has 14 points, not exactly 12. -/
theorem c2_overlay_has_history_plus_twelve_points :
    (overlayOf (page
        ⟨some ⟨some [⟨⟨2023, 1, 1⟩, "Residential", some 10, some 5, some 7⟩,
                     ⟨⟨2023, 2, 1⟩, "Residential", some 12, some 5, some 7⟩]⟩⟩
        "Residential" ⟨2023, 1, 1⟩ ⟨2024, 1, 1⟩ Granularity.Monthly true)).map
          List.length
      ≠ some 12
  ∧ (overlayOf (page
        ⟨some ⟨some [⟨⟨2023, 1, 1⟩, "Residential", some 10, some 5, some 7⟩,
                     ⟨⟨2023, 2, 1⟩, "Residential", some 12, some 5, some 7⟩]⟩⟩
        "Residential" ⟨2023, 1, 1⟩ ⟨2024, 1, 1⟩ Granularity.Monthly true)).map
          List.length
      = some 14 := by
  refine ⟨by decide, by decide⟩

/-- The KPI cards a page run renders are exactly the display of
`computeKPIs` over the monthly filtered rows, whatever the granularity and
forecast-toggle inputs. -/
theorem kpiCardsOf_page (resp : ApiEnvelope) (sector : String) (s e : Date)
    (g : Granularity) (f : Bool) :
    kpiCardsOf (page resp sector s e g f)
      = (computeKPIs (kpi_df (fetch_eia_data resp) sector s e)).toOption.map kpi_data := by
  simp only [page]
  split
  · next hEmpty =>
      rw [List.isEmpty_iff] at hEmpty
      rw [hEmpty]
      simp [kpiCardsOf, kpi_df, computeKPIs, price_change, ilocNeg1, Except.toOption]
  · split
    · next e2 heq => rw [heq]; simp [kpiCardsOf, Except.toOption]
    · next k heq =>
        rw [heq]
        cases g <;> (repeat' split) <;> simp [kpiCardsOf, Except.toOption]

/-- C10: the five KPI values come from the monthly filtered rows alone —
the cards rendered by a page run coincide for every pair of granularity and
forecast-toggle settings, and equal the display of `computeKPIs` over
`kpi_df` of the loaded data. -/
theorem c10_kpis_independent_of_granularity_and_toggle (resp : ApiEnvelope)
    (sector : String) (s e : Date) (g g' : Granularity) (f f' : Bool) :
    kpiCardsOf (page resp sector s e g f) = kpiCardsOf (page resp sector s e g' f')
  ∧ kpiCardsOf (page resp sector s e g f)
      = (computeKPIs (kpi_df (fetch_eia_data resp) sector s e)).toOption.map kpi_data := by
  refine ⟨?_, kpiCardsOf_page resp sector s e g f⟩
  rw [kpiCardsOf_page, kpiCardsOf_page]

/-- C6 amended: a degenerate single-point forecast input makes the
unguarded `Prophet().fit` call raise, the run ends with the fit exception,
and the base chart is not produced: whenever the filtered set has exactly
one row and the forecast toggle is on in Monthly granularity, the page is
exactly the KPI cards, the insight line, and the exception box. -/
theorem c6_single_point_forecast_raises (resp : ApiEnvelope) (sector : String)
    (s e : Date)
    (h : (kpi_df (fetch_eia_data resp) sector s e).length = 1) :
    ∃ cards t, page resp sector s e Granularity.Monthly true
      = [RenderItem.kpiCards cards, RenderItem.insight t,
         RenderItem.exceptionBox "Dataframe has less than 2 non-NaN rows."] := by
  obtain ⟨r, hr⟩ := List.length_eq_one.mp h
  have hne : fetch_eia_data resp ≠ [] := by
    intro h0
    rw [h0] at hr
    simp [kpi_df] at hr
  have hfit : prophetFit [(r.date, r.price)]
      = Except.error "Dataframe has less than 2 non-NaN rows." := by
    rw [prophetFit, if_pos]
    have hle := List.length_filter_le
      (fun p : Date × Option Rat => p.2.isSome) [(r.date, r.price)]
    simp only [List.length_cons, List.length_nil] at hle
    omega
  have hk : computeKPIs [r] = Except.ok
      ⟨seriesMean [r.price], seriesMax [r.price],
        fMulC (fDiv (fSub r.price r.price) r.price) 100,
        seriesSum [r.sales], seriesSum [r.revenue]⟩ := by
    rw [computeKPIs]
    simp [price_change, ilocNeg1, iloc0]
  have ht : trendOf [r]
      = Except.ok (if gtOpt r.price r.price then "increased" else "decreased") := by
    rw [trendOf]
    simp [ilocNeg1, iloc0]
  refine ⟨kpi_data ⟨seriesMean [r.price], seriesMax [r.price],
      fMulC (fDiv (fSub r.price r.price) r.price) 100,
      seriesSum [r.sales], seriesSum [r.revenue]⟩,
    if gtOpt r.price r.price then "increased" else "decreased", ?_⟩
  simp only [page, hr]
  rw [if_neg (by simp [List.isEmpty_iff, hne])]
  rw [hk, ht]
  simp [prophetPipeline, hfit]

/-- Witness for the amended C6 at a one-row dataset. -/
theorem c6_single_point_forecast_raises_witness :
    ∃ cards t, page ⟨some ⟨some [⟨⟨2021, 5, 1⟩, "Industrial", some 9, some 4, some 6⟩]⟩⟩
        "Industrial" ⟨2021, 1, 1⟩ ⟨2022, 1, 1⟩ Granularity.Monthly true
      = [RenderItem.kpiCards cards, RenderItem.insight t,
         RenderItem.exceptionBox "Dataframe has less than 2 non-NaN rows."] :=
  c6_single_point_forecast_raises
    ⟨some ⟨some [⟨⟨2021, 5, 1⟩, "Industrial", some 9, some 4, some 6⟩]⟩⟩
    "Industrial" ⟨2021, 1, 1⟩ ⟨2022, 1, 1⟩ (by decide)

/-- C5: the yearly rollup has one point per distinct calendar year of the
filtered rows (its keys are exactly those years, without repetition, in
strictly ascending order), and each point's price is the arithmetic mean —
sum divided by count — of that year's monthly prices. -/
theorem c5_yearly_rollup_mean_per_year (rows : List Row)
    (hp : ∀ r ∈ rows, r.price.isSome = true) :
    ((yearly_rollup rows).map Prod.fst).Sorted (· < ·)
  ∧ (∀ yr, yr ∈ (yearly_rollup rows).map Prod.fst ↔ yr ∈ rows.map (fun r => r.date.y))
  ∧ ((yearly_rollup rows).map Prod.fst).Nodup
  ∧ (yearly_rollup rows).length = (rows.map (fun r => r.date.y)).toFinset.card
  ∧ ∀ p ∈ yearly_rollup rows,
      p.2 = FVal.fin
        ((((rows.filter (fun r => r.date.y == p.1)).map Row.price).filterMap id).sum
          / ((((rows.filter (fun r => r.date.y == p.1)).map Row.price).filterMap id).length : Rat)) := by
  have hfst : (yearly_rollup rows).map Prod.fst = yearsOf rows := by
    rw [yearly_rollup, List.map_map]
    exact List.map_id' _
  refine ⟨?_, ?_, ?_, ?_, ?_⟩
  · rw [hfst, yearsOf]
    exact Finset.sort_sorted_lt _
  · intro yr
    rw [hfst, yearsOf, Finset.mem_sort, List.mem_toFinset]
  · rw [hfst, yearsOf]
    exact Finset.sort_nodup _ _
  · rw [yearly_rollup, List.length_map, yearsOf, Finset.length_sort]
  · intro p hp2
    rw [yearly_rollup, List.mem_map] at hp2
    obtain ⟨yr, hyr, rfl⟩ := hp2
    rw [yearsOf, Finset.mem_sort, List.mem_toFinset, List.mem_map] at hyr
    obtain ⟨r, hrmem, hry⟩ := hyr
    obtain ⟨q, hq⟩ := Option.isSome_iff_exists.mp (hp r hrmem)
    have hmem : q ∈ ((rows.filter (fun r2 => r2.date.y == r.date.y)).map Row.price).filterMap id := by
      rw [List.mem_filterMap]
      refine ⟨some q, ?_, rfl⟩
      rw [List.mem_map]
      refine ⟨r, ?_, hq⟩
      rw [List.mem_filter]
      exact ⟨hrmem, by simp⟩
    have hlen : (((rows.filter (fun r2 => r2.date.y == r.date.y)).map Row.price).filterMap id).length ≠ 0 := by
      intro h0
      rw [List.length_eq_zero] at h0
      rw [h0] at hmem
      simp at hmem
    simp only [hry] at *
    rw [seriesMean]
    simp only [hlen, if_false]

/-- Witness for C5 at three rows spanning two years. -/
theorem c5_yearly_rollup_mean_per_year_witness :
    ((yearly_rollup c5rows).map Prod.fst).Sorted (· < ·)
  ∧ (∀ yr, yr ∈ (yearly_rollup c5rows).map Prod.fst
      ↔ yr ∈ c5rows.map (fun r => r.date.y))
  ∧ ((yearly_rollup c5rows).map Prod.fst).Nodup
  ∧ (yearly_rollup c5rows).length = (c5rows.map (fun r => r.date.y)).toFinset.card
  ∧ ∀ p ∈ yearly_rollup c5rows,
      p.2 = FVal.fin
        ((((c5rows.filter (fun r => r.date.y == p.1)).map Row.price).filterMap id).sum
          / ((((c5rows.filter (fun r => r.date.y == p.1)).map Row.price).filterMap id).length : Rat)) :=
  c5_yearly_rollup_mean_per_year c5rows (by decide)

/-- C2 amended: when a forecast is produced (at least two fitted rows), its
date column is the sorted distinct input dates — kept because
`include_history` defaults to `True` — followed by exactly 12 further
points at strictly increasing monthly cadence, the first of which is the
month immediately after the last input date; every appended point lies
strictly after every input date. -/
theorem c2_forecast_extends_history_by_twelve
    (prophet_df : List (Date × Option Rat))
    (h2 : 2 ≤ (prophet_df.filter (fun p => p.2.isSome)).length)
    (hval : ∀ p ∈ prophet_df, Date.validMS p.1) :
    ∃ future : List Date,
      prophetPipeline prophet_df
        = Except.ok (sortedUniqueDates (prophet_df.map Prod.fst) ++ future)
      ∧ future.length = 12
      ∧ future.Chain' (fun a b => b = a.nextMonthStart)
      ∧ future.Chain' (· < ·)
      ∧ future.head?
          = some (seriesMaxDate (sortedUniqueDates (prophet_df.map Prod.fst))).nextMonthStart
      ∧ seriesMaxDate (sortedUniqueDates (prophet_df.map Prod.fst)) ∈ prophet_df.map Prod.fst
      ∧ (∀ dt ∈ prophet_df.map Prod.fst,
          dt ≤ seriesMaxDate (sortedUniqueDates (prophet_df.map Prod.fst)))
      ∧ (∀ x ∈ future, ∀ dt ∈ prophet_df.map Prod.fst, dt < x) := by
  have hdne : prophet_df.map Prod.fst ≠ [] := by
    intro h0
    rw [List.map_eq_nil] at h0
    rw [h0] at h2
    simp at h2
  have hne : sortedUniqueDates (prophet_df.map Prod.fst) ≠ [] :=
    sortedUniqueDates_ne_nil hdne
  have hmax_mem_hist :
      seriesMaxDate (sortedUniqueDates (prophet_df.map Prod.fst))
        ∈ sortedUniqueDates (prophet_df.map Prod.fst) := seriesMaxDate_mem hne
  have hmax_mem :
      seriesMaxDate (sortedUniqueDates (prophet_df.map Prod.fst))
        ∈ prophet_df.map Prod.fst := mem_sortedUniqueDates.mp hmax_mem_hist
  have hmax_val : (seriesMaxDate (sortedUniqueDates (prophet_df.map Prod.fst))).validMS := by
    rw [List.mem_map] at hmax_mem
    obtain ⟨p, hp, hpe⟩ := hmax_mem
    rw [← hpe]
    exact hval p hp
  have hnext_val := Date.validMS_nextMonthStart hmax_val
  have hfit : prophetFit prophet_df
      = Except.ok ⟨sortedUniqueDates (prophet_df.map Prod.fst)⟩ := by
    rw [prophetFit, if_neg]
    omega
  have hms : msIter (seriesMaxDate (sortedUniqueDates (prophet_df.map Prod.fst))) (12 + 1)
      = seriesMaxDate (sortedUniqueDates (prophet_df.map Prod.fst))
        :: msIter (seriesMaxDate (sortedUniqueDates (prophet_df.map Prod.fst))).nextMonthStart 12 :=
    rfl
  have hall : ∀ x ∈ msIter
      (seriesMaxDate (sortedUniqueDates (prophet_df.map Prod.fst))).nextMonthStart 12,
      seriesMaxDate (sortedUniqueDates (prophet_df.map Prod.fst)) < x := by
    intro x hx
    rcases msIter_ge hnext_val 12 x hx with rfl | h
    · exact Date.lt_nextMonthStart hmax_val
    · exact Date.lt_trans (Date.lt_nextMonthStart hmax_val) h
  have hmk : make_future_dataframe ⟨sortedUniqueDates (prophet_df.map Prod.fst)⟩ 12
      = sortedUniqueDates (prophet_df.map Prod.fst)
        ++ msIter (seriesMaxDate (sortedUniqueDates (prophet_df.map Prod.fst))).nextMonthStart 12 := by
    simp only [make_future_dataframe]
    rw [dateRangeMS, if_pos hmax_val.1, hms, List.filter_cons]
    rw [show (Date.ltb (seriesMaxDate (sortedUniqueDates (prophet_df.map Prod.fst)))
          (seriesMaxDate (sortedUniqueDates (prophet_df.map Prod.fst)))) = false
        from Date.ltb_self _]
    simp only [Bool.false_eq_true, if_false]
    rw [List.filter_eq_self.mpr (fun x hx => hall x hx)]
    rw [List.take_of_length_le (le_of_eq (msIter_length _ 12))]
  refine ⟨msIter (seriesMaxDate (sortedUniqueDates (prophet_df.map Prod.fst))).nextMonthStart 12,
    ?_, msIter_length _ 12, msIter_chain_next _ 12, msIter_chain_lt hnext_val 12,
    rfl, hmax_mem, ?_, ?_⟩
  · simp only [prophetPipeline, hfit]
    rw [hmk]
  · intro dt hdt
    exact seriesMaxDate_ge dt (mem_sortedUniqueDates.mpr hdt)
  · intro x hx dt hdt
    exact Date.lt_of_le_of_lt (seriesMaxDate_ge dt (mem_sortedUniqueDates.mpr hdt)) (hall x hx)

/-- Witness for the amended C2 at a two-point January/February 2023 series. -/
theorem c2_forecast_extends_history_by_twelve_witness :
    ∃ future : List Date,
      prophetPipeline [(⟨2023, 1, 1⟩, some 10), (⟨2023, 2, 1⟩, some 12)]
        = Except.ok (sortedUniqueDates
            (([(⟨2023, 1, 1⟩, some 10), (⟨2023, 2, 1⟩, some 12)]
              : List (Date × Option Rat)).map Prod.fst) ++ future)
      ∧ future.length = 12
      ∧ future.Chain' (fun a b => b = a.nextMonthStart)
      ∧ future.Chain' (· < ·)
      ∧ future.head?
          = some (seriesMaxDate (sortedUniqueDates
              (([(⟨2023, 1, 1⟩, some 10), (⟨2023, 2, 1⟩, some 12)]
                : List (Date × Option Rat)).map Prod.fst))).nextMonthStart
      ∧ seriesMaxDate (sortedUniqueDates
            (([(⟨2023, 1, 1⟩, some 10), (⟨2023, 2, 1⟩, some 12)]
              : List (Date × Option Rat)).map Prod.fst))
          ∈ ([(⟨2023, 1, 1⟩, some 10), (⟨2023, 2, 1⟩, some 12)]
              : List (Date × Option Rat)).map Prod.fst
      ∧ (∀ dt ∈ ([(⟨2023, 1, 1⟩, some 10), (⟨2023, 2, 1⟩, some 12)]
            : List (Date × Option Rat)).map Prod.fst,
          dt ≤ seriesMaxDate (sortedUniqueDates
            (([(⟨2023, 1, 1⟩, some 10), (⟨2023, 2, 1⟩, some 12)]
              : List (Date × Option Rat)).map Prod.fst)))
      ∧ (∀ x ∈ future, ∀ dt ∈ ([(⟨2023, 1, 1⟩, some 10), (⟨2023, 2, 1⟩, some 12)]
            : List (Date × Option Rat)).map Prod.fst, dt < x) :=
  c2_forecast_extends_history_by_twelve
    [(⟨2023, 1, 1⟩, some 10), (⟨2023, 2, 1⟩, some 12)] (by decide) (by decide)

end EIA
